import Mathlib

/-!
# Verification of the `triagelib` request gateway

Shallow embedding of `triagelib/__init__.py` (a Cofense Triage REST API
client).  Python dynamic values are modelled by `PyVal`, Python exceptions
by `PyExc`, and each public operation of `TriageSession` by a Lean function
returning `Except PyExc Request`.  The HTTP exchange itself is modelled by
passing an explicit `HttpResponse` to the embedded `_reqsend` / `_parse`
pipeline.  `json.loads` (standard library, outside the repository) is
abstracted as a `decode : String → Option J` argument.
-/

/-- The exception classes defined at the top of `triagelib/__init__.py`.
`triageError` is the base class `TriageError`; the others are
`TriageStateError`, `TriageClientError`, `TriageAuthError` (subclass of
`TriageClientError`), `TriageServerError` and `TriageFailureError`. -/
inductive ExcCls where
  | triageError
  | stateError
  | clientError
  | authError
  | serverError
  | failureError
deriving DecidableEq, Repr

/-- The inheritance chain of each exception class within the taxonomy
(each class listed with all its `Triage*` ancestors, itself included),
exactly as declared in the source. -/
def ancestorsOf : ExcCls → List ExcCls
  | ExcCls.triageError => [ExcCls.triageError]
  | ExcCls.stateError => [ExcCls.stateError, ExcCls.triageError]
  | ExcCls.clientError => [ExcCls.clientError, ExcCls.triageError]
  | ExcCls.authError => [ExcCls.authError, ExcCls.clientError, ExcCls.triageError]
  | ExcCls.serverError => [ExcCls.serverError, ExcCls.triageError]
  | ExcCls.failureError => [ExcCls.failureError, ExcCls.triageError]

/-- Python `issubclass` restricted to the taxonomy of the source. -/
def isSubclassOf (c d : ExcCls) : Bool :=
  d ∈ ancestorsOf c

/-- Exceptions an embedded operation can raise.
`typeError` / `valueError` are the built-in Python exceptions raised
explicitly by the source with a message; `concatTypeError` is the built-in
`TypeError` Python raises when `str + non-str` is evaluated (its message
names no parameter); `joinTypeError` likewise for `",".join` over
non-string elements; `triage cls msg` is an instance of the `Triage*`
hierarchy. -/
inductive PyExc where
  | typeError (msg : String)
  | valueError (msg : String)
  | concatTypeError
  | joinTypeError
  | triage (cls : ExcCls) (msg : String)
deriving DecidableEq, Repr

/-- Python values as passed to the operations: `None`, `str`, `int`,
`list`, `bool`. -/
inductive PyVal where
  | none
  | str (s : String)
  | int (n : Int)
  | list (xs : List PyVal)
  | bool (b : Bool)

/-- Python truthiness: `None`, `""`, `0`, `[]` and `False` are falsy. -/
def PyVal.truthy : PyVal → Bool
  | PyVal.none => false
  | PyVal.str s => s != ""
  | PyVal.int n => n != 0
  | PyVal.list xs => !xs.isEmpty
  | PyVal.bool b => b

/-- `isinstance(v, str)`. -/
def PyVal.isStr : PyVal → Bool
  | PyVal.str _ => true
  | _ => false

/-- `isinstance(v, int)`; in Python `bool` is a subclass of `int`. -/
def PyVal.isInt : PyVal → Bool
  | PyVal.int _ => true
  | PyVal.bool _ => true
  | _ => false

/-- `isinstance(v, list)`. -/
def PyVal.isList : PyVal → Bool
  | PyVal.list _ => true
  | _ => false

/-- `v is None`. -/
def PyVal.isNone : PyVal → Bool
  | PyVal.none => true
  | _ => false

/-- Python `str(v)` for the values that reach it in the source.  Every call
site (`str(page)`, `str(report_id)`, ... and the `{}.format` of
`report_id` / `attachment_id`) is dominated by an `isinstance(..., int)`
check, so only `int` (and `bool`, its Python subclass) reach it. -/
def pyStr : PyVal → String
  | PyVal.str s => s
  | PyVal.int n => toString n
  | PyVal.bool b => if b then "True" else "False"
  | PyVal.none => "None"
  | PyVal.list _ => "[...]"

/-- Extract the elements of a list of Python strings, as
`",".join` traverses them: the first non-`str` element raises the
built-in `TypeError`. -/
def strElems : List PyVal → Except PyExc (List String)
  | [] => Except.ok []
  | PyVal.str s :: rest =>
    match strElems rest with
    | Except.ok ss => Except.ok (s :: ss)
    | Except.error e => Except.error e
  | _ :: _ => Except.error PyExc.joinTypeError

/-- `",".join(v)` as used on the `tags` argument (always guarded by an
`isinstance(tags, list)` check in the source). -/
def joinComma (v : PyVal) : Except PyExc String :=
  match v with
  | PyVal.list xs =>
    match strElems xs with
    | Except.ok ss => Except.ok (String.intercalate "," ss)
    | Except.error e => Except.error e
  | _ => Except.error PyExc.joinTypeError

/-- `if v: params.append(key + "=" + v)` — string concatenation raises the
built-in `TypeError` when a truthy `v` is not a `str`. -/
def strParam (key : String) (v : PyVal) : Except PyExc (List String) :=
  if v.truthy then
    match v with
    | PyVal.str s => Except.ok [key ++ "=" ++ s]
    | _ => Except.error PyExc.concatTypeError
  else Except.ok []

/-- `if v: params.append(key + "=" + str(v))` — total, since `str` never
fails. -/
def intParam (key : String) (v : PyVal) : List String :=
  if v.truthy then [key ++ "=" ++ pyStr v] else []

/-- `if tags: params.append("tags=" + ",".join(tags))`. -/
def tagsParam (v : PyVal) : Except PyExc (List String) :=
  if v.truthy then
    match joinComma v with
    | Except.ok t => Except.ok ["tags=" ++ t]
    | Except.error e => Except.error e
  else Except.ok []

/-- The state held by a `TriageSession` instance after `__init__`
(`_triagehost`, `_email`, `_apikey`, `_usessl`, `_userag`).  The model
types `email`, `apikey`, `uag` as `String` and `ssl` as `Bool`, so the
`isinstance` checks the source performs on them are vacuously true and are
omitted from the embedded operations. -/
structure TriageSession where
  host : String
  email : String
  apikey : String
  ssl : Bool
  uag : String
deriving DecidableEq, Repr

/-- `TriageSession.apiver`. -/
def apiver : String := "1.0.0"

/-- `self._headers`, built in `__init__`, as an insertion-ordered
association list. -/
def sessionHeaders (sess : TriageSession) : List (String × String) :=
  [("Accept", "application/vnd.ve.v1.0+json"),
   ("VE-API-Version", apiver),
   ("user-agent", sess.uag),
   ("Authorization", "Token token=" ++ sess.email ++ ":" ++ sess.apikey)]

/-- `headers = self._headers.copy(); headers.update(Content-Type:
application/json)` as performed by every JSON operation. -/
def jsonHeaders (sess : TriageSession) : List (String × String) :=
  sessionHeaders sess ++ [("Content-Type", "application/json")]

/-- The scheme part of the URL format string: `http` plus an `s` when
`self._usessl` is set, plus `://`. -/
def scheme (sess : TriageSession) : String :=
  "http" ++ (if sess.ssl then "s" else "") ++ "://"

/-- A full URL `http(s)://{host}{tail}`. -/
def mkUrl (sess : TriageSession) (tail : String) : String :=
  scheme sess ++ (sess.host ++ tail)

/-- A prepared outbound HTTP request (`requests.Request` with method
GET, the url and the headers). -/
structure Request where
  method : String
  url : String
  headers : List (String × String)
deriving DecidableEq, Repr

/-- A raw HTTP response: status code, `resp.text` and `resp.content`. -/
structure HttpResponse where
  status : Nat
  text : String
  content : List Nat
deriving DecidableEq, Repr

/-- Message of the `TriageAuthError` raised by `_reqsend` (built from the
`host` argument of `_reqsend`). -/
def authMsg (host : String) : String :=
  "triagelib: Could not authenticate to Triage box " ++ host ++ "."

/-- Message of the HTTP-error exceptions raised by `_reqsend` (built from
`self._triagehost`). -/
def httpErrMsg (sess : TriageSession) (status : Nat) : String :=
  "triagelib: Triage box " ++ sess.host ++ " returned HTTP error " ++
    toString status ++ "."

/-- `TriageSession._reqsend`: status 401 raises `TriageAuthError`; any
other non-200 status raises `TriageClientError` (4xx), `TriageServerError`
(5xx) or bare `TriageError`; 200 returns the response. -/
def reqsend (sess : TriageSession) (resp : HttpResponse) (host : String) :
    Except PyExc HttpResponse :=
  if resp.status = 401 then
    Except.error (PyExc.triage ExcCls.authError (authMsg host))
  else if resp.status ≠ 200 then
    if 400 ≤ resp.status ∧ resp.status < 500 then
      Except.error (PyExc.triage ExcCls.clientError (httpErrMsg sess resp.status))
    else if 500 ≤ resp.status ∧ resp.status < 600 then
      Except.error (PyExc.triage ExcCls.serverError (httpErrMsg sess resp.status))
    else
      Except.error (PyExc.triage ExcCls.triageError (httpErrMsg sess resp.status))
  else Except.ok resp

/-- Message of the `TriageError` raised by `_parse` on malformed JSON. -/
def jsonErrMsg (sess : TriageSession) : String :=
  "triagelib: Triage box " ++ sess.host ++ " did not return a valid json output."

/-- `TriageSession._parse`: `json.loads(src)` (abstracted as `decode`);
a `ValueError` from the decoder is turned into a bare `TriageError`
naming the host. -/
def parseWith {J : Type} (decode : String → Option J) (sess : TriageSession)
    (src : String) : Except PyExc J :=
  match decode src with
  | Option.none => Except.error (PyExc.triage ExcCls.triageError (jsonErrMsg sess))
  | Option.some v => Except.ok v

/-- Arguments of `TriageSession.reports`, fields in the declaration order
of the Python signature. -/
structure ReportsArgs where
  match_priority : PyVal
  category_id : PyVal
  start_date : PyVal
  tags : PyVal
  end_date : PyVal
  page : PyVal
  per_page : PyVal
  report_id : PyVal

/-- The `reports` argument record with every argument left at its `None`
default. -/
def noReportsArgs : ReportsArgs :=
  ⟨PyVal.none, PyVal.none, PyVal.none, PyVal.none,
   PyVal.none, PyVal.none, PyVal.none, PyVal.none⟩

/-- The chain of `isinstance` checks of `reports`, in source order. -/
def reportsValidate (a : ReportsArgs) : Except PyExc Unit :=
  if a.tags.truthy && !a.tags.isList then
    Except.error (PyExc.typeError "triagelib: tags parameter must be a list of strings")
  else if a.page.truthy && !a.page.isInt then
    Except.error (PyExc.typeError "triagelib: page parameter must be an integer")
  else if a.per_page.truthy && !a.per_page.isInt then
    Except.error (PyExc.typeError "triagelib: per_page parameter must be an integer")
  else if a.start_date.truthy && !a.start_date.isStr then
    Except.error (PyExc.typeError "triagelib: start_date parameter must be a string")
  else if a.end_date.truthy && !a.end_date.isStr then
    Except.error (PyExc.typeError "triagelib: end_date parameter must be a string")
  else if a.report_id.truthy && !a.report_id.isInt then
    Except.error (PyExc.typeError "triagelib: report_id parameter must be an integer")
  else if a.category_id.truthy && !a.category_id.isInt then
    Except.error (PyExc.typeError "triagelib: caterory_id parameter must be an integer")
  else if a.match_priority.truthy && !a.match_priority.isInt then
    Except.error (PyExc.typeError "triagelib: match_priority parameter must be an integer")
  else Except.ok ()

/-- The `params` list of `reports`, appended in source order: tags, page,
per_page, start_date, end_date, match_priority, category_id. -/
def reportsParams (a : ReportsArgs) : Except PyExc (List String) :=
  match tagsParam a.tags with
  | Except.error e => Except.error e
  | Except.ok p1 =>
    match strParam "start_date" a.start_date with
    | Except.error e => Except.error e
    | Except.ok p4 =>
      match strParam "end_date" a.end_date with
      | Except.error e => Except.error e
      | Except.ok p5 =>
        Except.ok (p1 ++ intParam "page" a.page ++ intParam "per_page" a.per_page ++
          p4 ++ p5 ++ intParam "match_priority" a.match_priority ++
          intParam "category_id" a.category_id)

/-- The URL tail chosen by `reports`: by-id path when `report_id` is
truthy, else query form when any parameter was appended, else the bare
endpoint. -/
def reportsTail (a : ReportsArgs) (params : List String) : String :=
  if a.report_id.truthy then
    "/api/public/v1/reports/" ++ pyStr a.report_id
  else if params ≠ [] then
    "/api/public/v1/reports?" ++ String.intercalate "&" params
  else "/api/public/v1/reports"

/-- `TriageSession.reports` up to (and including) the construction of the
prepared request. -/
def reports (sess : TriageSession) (a : ReportsArgs) : Except PyExc Request :=
  match reportsValidate a with
  | Except.error e => Except.error e
  | Except.ok _ =>
    match reportsParams a with
    | Except.error e => Except.error e
    | Except.ok params =>
      Except.ok (Request.mk "GET" (mkUrl sess (reportsTail a params)) (jsonHeaders sess))

/-- Arguments of `TriageSession.processed_reports`, in declaration order. -/
structure ProcessedArgs where
  match_priority : PyVal
  category_id : PyVal
  start_date : PyVal
  tags : PyVal
  end_date : PyVal
  page : PyVal
  per_page : PyVal

/-- The `processed_reports` argument record with all defaults. -/
def noProcessedArgs : ProcessedArgs :=
  ⟨PyVal.none, PyVal.none, PyVal.none, PyVal.none, PyVal.none, PyVal.none, PyVal.none⟩

/-- The `isinstance` checks of `processed_reports`, in source order. -/
def processedValidate (a : ProcessedArgs) : Except PyExc Unit :=
  if a.tags.truthy && !a.tags.isList then
    Except.error (PyExc.typeError "triagelib: tags parameter must be a list of strings")
  else if a.page.truthy && !a.page.isInt then
    Except.error (PyExc.typeError "triagelib: page parameter must be an integer")
  else if a.per_page.truthy && !a.per_page.isInt then
    Except.error (PyExc.typeError "triagelib: per_page parameter must be an integer")
  else if a.start_date.truthy && !a.start_date.isStr then
    Except.error (PyExc.typeError "triagelib: start_date parameter must be a string")
  else if a.end_date.truthy && !a.end_date.isStr then
    Except.error (PyExc.typeError "triagelib: end_date parameter must be a string")
  else if a.category_id.truthy && !a.category_id.isInt then
    Except.error (PyExc.typeError "triagelib: caterory_id parameter must be an integer")
  else if a.match_priority.truthy && !a.match_priority.isInt then
    Except.error (PyExc.typeError "triagelib: match_priority parameter must be an integer")
  else Except.ok ()

/-- The `params` list of `processed_reports`, appended in source order:
tags, page, per_page, start_date, end_date, category_id, match_priority. -/
def processedParams (a : ProcessedArgs) : Except PyExc (List String) :=
  match tagsParam a.tags with
  | Except.error e => Except.error e
  | Except.ok p1 =>
    match strParam "start_date" a.start_date with
    | Except.error e => Except.error e
    | Except.ok p4 =>
      match strParam "end_date" a.end_date with
      | Except.error e => Except.error e
      | Except.ok p5 =>
        Except.ok (p1 ++ intParam "page" a.page ++ intParam "per_page" a.per_page ++
          p4 ++ p5 ++ intParam "category_id" a.category_id ++
          intParam "match_priority" a.match_priority)

/-- `TriageSession.processed_reports` up to the prepared request. -/
def processed_reports (sess : TriageSession) (a : ProcessedArgs) : Except PyExc Request :=
  match processedValidate a with
  | Except.error e => Except.error e
  | Except.ok _ =>
    match processedParams a with
    | Except.error e => Except.error e
    | Except.ok params =>
      Except.ok (Request.mk "GET"
        (mkUrl sess (if params ≠ [] then
          "/api/public/v1/processed_reports?" ++ String.intercalate "&" params
        else "/api/public/v1/processed_reports"))
        (jsonHeaders sess))

/-- Arguments of `TriageSession.inbox_reports`, in declaration order. -/
structure InboxArgs where
  match_priority : PyVal
  start_date : PyVal
  end_date : PyVal
  page : PyVal
  per_page : PyVal

/-- The `inbox_reports` argument record with all defaults. -/
def noInboxArgs : InboxArgs :=
  ⟨PyVal.none, PyVal.none, PyVal.none, PyVal.none, PyVal.none⟩

/-- The `isinstance` checks of `inbox_reports`, in source order. -/
def inboxValidate (a : InboxArgs) : Except PyExc Unit :=
  if a.page.truthy && !a.page.isInt then
    Except.error (PyExc.typeError "triagelib: page parameter must be an integer")
  else if a.per_page.truthy && !a.per_page.isInt then
    Except.error (PyExc.typeError "triagelib: per_page parameter must be an integer")
  else if a.start_date.truthy && !a.start_date.isStr then
    Except.error (PyExc.typeError "triagelib: start_date parameter must be a string")
  else if a.end_date.truthy && !a.end_date.isStr then
    Except.error (PyExc.typeError "triagelib: end_date parameter must be a string")
  else if a.match_priority.truthy && !a.match_priority.isInt then
    Except.error (PyExc.typeError "triagelib: match_priority parameter must be an integer")
  else Except.ok ()

/-- The `params` list of `inbox_reports`, appended in source order: page,
per_page, start_date, end_date, match_priority. -/
def inboxParams (a : InboxArgs) : Except PyExc (List String) :=
  match strParam "start_date" a.start_date with
  | Except.error e => Except.error e
  | Except.ok p3 =>
    match strParam "end_date" a.end_date with
    | Except.error e => Except.error e
    | Except.ok p4 =>
      Except.ok (intParam "page" a.page ++ intParam "per_page" a.per_page ++
        p3 ++ p4 ++ intParam "match_priority" a.match_priority)

/-- `TriageSession.inbox_reports` up to the prepared request. -/
def inbox_reports (sess : TriageSession) (a : InboxArgs) : Except PyExc Request :=
  match inboxValidate a with
  | Except.error e => Except.error e
  | Except.ok _ =>
    match inboxParams a with
    | Except.error e => Except.error e
    | Except.ok params =>
      Except.ok (Request.mk "GET"
        (mkUrl sess (if params ≠ [] then
          "/api/public/v1/inbox_reports?" ++ String.intercalate "&" params
        else "/api/public/v1/inbox_reports"))
        (jsonHeaders sess))

/-- Arguments of `TriageSession.clusters`, in declaration order (note
`tags` is declared and validated as a plain string here, unlike
`reports`). -/
structure ClustersArgs where
  match_priority : PyVal
  start_date : PyVal
  end_date : PyVal
  page : PyVal
  per_page : PyVal
  tags : PyVal

/-- The `clusters` argument record with all defaults. -/
def noClustersArgs : ClustersArgs :=
  ⟨PyVal.none, PyVal.none, PyVal.none, PyVal.none, PyVal.none, PyVal.none⟩

/-- The `isinstance` checks of `clusters`, in source order. -/
def clustersValidate (a : ClustersArgs) : Except PyExc Unit :=
  if a.tags.truthy && !a.tags.isStr then
    Except.error (PyExc.typeError "triagelib: tags parameter must be a string")
  else if a.page.truthy && !a.page.isInt then
    Except.error (PyExc.typeError "triagelib: page parameter must be an integer")
  else if a.per_page.truthy && !a.per_page.isInt then
    Except.error (PyExc.typeError "triagelib: per_page parameter must be an integer")
  else if a.start_date.truthy && !a.start_date.isStr then
    Except.error (PyExc.typeError "triagelib: start_date parameter must be a string")
  else if a.end_date.truthy && !a.end_date.isStr then
    Except.error (PyExc.typeError "triagelib: end_date parameter must be a string")
  else if a.match_priority.truthy && !a.match_priority.isInt then
    Except.error (PyExc.typeError "triagelib: match_priority parameter must be an integer")
  else Except.ok ()

/-- The `params` list of `clusters`, appended in source order: tags
(string concatenation), page, per_page, start_date, end_date,
match_priority. -/
def clustersParams (a : ClustersArgs) : Except PyExc (List String) :=
  match strParam "tags" a.tags with
  | Except.error e => Except.error e
  | Except.ok p1 =>
    match strParam "start_date" a.start_date with
    | Except.error e => Except.error e
    | Except.ok p4 =>
      match strParam "end_date" a.end_date with
      | Except.error e => Except.error e
      | Except.ok p5 =>
        Except.ok (p1 ++ intParam "page" a.page ++ intParam "per_page" a.per_page ++
          p4 ++ p5 ++ intParam "match_priority" a.match_priority)

/-- `TriageSession.clusters` up to the prepared request. -/
def clusters (sess : TriageSession) (a : ClustersArgs) : Except PyExc Request :=
  match clustersValidate a with
  | Except.error e => Except.error e
  | Except.ok _ =>
    match clustersParams a with
    | Except.error e => Except.error e
    | Except.ok params =>
      Except.ok (Request.mk "GET"
        (mkUrl sess (if params ≠ [] then
          "/api/public/v1/clusters?" ++ String.intercalate "&" params
        else "/api/public/v1/clusters"))
        (jsonHeaders sess))

/-- The string carried by a Python `str` value (only applied after an
`isinstance(..., str)` check, as the source does when it stores
`mime_type` into the headers dict). -/
def PyVal.asStr : PyVal → String
  | PyVal.str s => s
  | _ => ""

/-- `TriageSession.attachment` up to the prepared request: validates
`mime_type` then `attachment_id`, embeds the id in the path and sets
`Content-Type` to the caller-supplied MIME type. -/
def attachment (sess : TriageSession) (attachment_id mime_type : PyVal) :
    Except PyExc Request :=
  if !mime_type.isStr then
    Except.error (PyExc.typeError "triagelib: mime_type parameter must be a string")
  else if !attachment_id.isInt then
    Except.error (PyExc.typeError "triagelib: attachment_id parameter must be an integer")
  else
    Except.ok (Request.mk "GET"
      (mkUrl sess ("/api/public/v1/attachment/" ++ pyStr attachment_id))
      (sessionHeaders sess ++ [("Content-Type", mime_type.asStr)]))

/-- `TriageSession.integration_search` up to the prepared request.
Faithful to the order of evaluation in the source: the `params` list is built
(by string concatenation, which can itself raise) BEFORE any `isinstance`
validation runs; the third `isinstance` check tests `md5` although its
message names `sha256` (a copy-paste slip of the source at lines 376-377);
the only cross-parameter check is `[sha256, md5, searchurl].count(None)
== 3`, raising `ValueError` (whose message, as in the source, lacks the
separating colon); and the URL always contains `?`. -/
def integration_search (sess : TriageSession) (sha256 md5 searchurl : PyVal) :
    Except PyExc Request :=
  match strParam "searchurl" searchurl with
  | Except.error e => Except.error e
  | Except.ok p1 =>
    match strParam "md5" md5 with
    | Except.error e => Except.error e
    | Except.ok p2 =>
      match strParam "sha256" sha256 with
      | Except.error e => Except.error e
      | Except.ok p3 =>
        if md5.truthy && !md5.isStr then
          Except.error (PyExc.typeError "triagelib: md5 parameter must be a string")
        else if searchurl.truthy && !searchurl.isStr then
          Except.error (PyExc.typeError "triagelib: searchurl parameter must be a string")
        else if md5.truthy && !md5.isStr then
          Except.error (PyExc.typeError "triagelib: sha256 parameter must be a string")
        else if sha256.isNone && md5.isNone && searchurl.isNone then
          Except.error (PyExc.valueError
            "triagelibTriage.integration_search takes exactly 1 argument. You gave none.")
        else
          Except.ok (Request.mk "GET"
            (mkUrl sess ("/api/public/v1/integration_search?" ++
              String.intercalate "&" (p1 ++ p2 ++ p3)))
            (jsonHeaders sess))

/-- The tail of every JSON operation: prepare the request, send it through
`_reqsend`, parse `resp.text` through `_parse`. -/
def sendAndParse {J : Type} (decode : String → Option J) (sess : TriageSession)
    (req : Except PyExc Request) (resp : HttpResponse) : Except PyExc J :=
  match req with
  | Except.error e => Except.error e
  | Except.ok _ =>
    match reqsend sess resp sess.host with
    | Except.error e => Except.error e
    | Except.ok r => parseWith decode sess r.text

/-- `TriageSession.attachment` end to end: on success, `resp.content` is
returned as-is, with no parsing. -/
def attachmentCall (sess : TriageSession) (attachment_id mime_type : PyVal)
    (resp : HttpResponse) : Except PyExc (List Nat) :=
  match attachment sess attachment_id mime_type with
  | Except.error e => Except.error e
  | Except.ok _ =>
    match reqsend sess resp sess.host with
    | Except.error e => Except.error e
    | Except.ok r => Except.ok r.content

example : reports (TriageSession.mk "h" "e" "k" false "u") noReportsArgs =
    Except.ok (Request.mk "GET" "http://h/api/public/v1/reports"
      (jsonHeaders (TriageSession.mk "h" "e" "k" false "u"))) := rfl

example : integration_search (TriageSession.mk "h" "e" "k" true "u")
    PyVal.none PyVal.none PyVal.none =
    Except.error (PyExc.valueError
      "triagelibTriage.integration_search takes exactly 1 argument. You gave none.") := rfl

example : integration_search (TriageSession.mk "h" "e" "k" true "u")
    (PyVal.str "y") (PyVal.str "x") PyVal.none =
    Except.ok (Request.mk "GET" "https://h/api/public/v1/integration_search?md5=x&sha256=y"
      (jsonHeaders (TriageSession.mk "h" "e" "k" true "u"))) := rfl

/-! ## Helper lemmas -/

theorem strElems_map_str (ts : List String) :
    strElems (ts.map PyVal.str) = Except.ok ts := by
  induction ts with
  | nil => rfl
  | cons t ts ih => simp [strElems, ih]

theorem joinComma_map_str (ts : List String) :
    joinComma (PyVal.list (ts.map PyVal.str)) =
      Except.ok (String.intercalate "," ts) := by
  simp [joinComma, strElems_map_str]

theorem scheme_eq (sess : TriageSession) :
    scheme sess = if sess.ssl then "https://" else "http://" := by
  cases h : sess.ssl <;> simp [scheme, h]

/-- Every successful `reports` call yields a GET request with the shared
JSON headers and a URL rooted at the scheme and host of the session. -/
theorem reports_ok_shape {sess : TriageSession} {a : ReportsArgs} {req : Request}
    (h : reports sess a = Except.ok req) :
    req.method = "GET" ∧ req.headers = jsonHeaders sess ∧ ∃ t, req.url = mkUrl sess t := by
  unfold reports at h
  cases hv : reportsValidate a <;> rw [hv] at h
  · exact absurd h (by simp)
  · cases hp : reportsParams a <;> rw [hp] at h
    · exact absurd h (by simp)
    · injection h with h
      subst h
      exact ⟨rfl, rfl, ⟨_, rfl⟩⟩

/-- Same shape fact for `processed_reports`. -/
theorem processed_ok_shape {sess : TriageSession} {a : ProcessedArgs} {req : Request}
    (h : processed_reports sess a = Except.ok req) :
    req.method = "GET" ∧ req.headers = jsonHeaders sess ∧ ∃ t, req.url = mkUrl sess t := by
  unfold processed_reports at h
  cases hv : processedValidate a <;> rw [hv] at h
  · exact absurd h (by simp)
  · cases hp : processedParams a <;> rw [hp] at h
    · exact absurd h (by simp)
    · injection h with h
      subst h
      exact ⟨rfl, rfl, ⟨_, rfl⟩⟩

/-- Same shape fact for `inbox_reports`. -/
theorem inbox_ok_shape {sess : TriageSession} {a : InboxArgs} {req : Request}
    (h : inbox_reports sess a = Except.ok req) :
    req.method = "GET" ∧ req.headers = jsonHeaders sess ∧ ∃ t, req.url = mkUrl sess t := by
  unfold inbox_reports at h
  cases hv : inboxValidate a <;> rw [hv] at h
  · exact absurd h (by simp)
  · cases hp : inboxParams a <;> rw [hp] at h
    · exact absurd h (by simp)
    · injection h with h
      subst h
      exact ⟨rfl, rfl, ⟨_, rfl⟩⟩

/-- Same shape fact for `clusters`. -/
theorem clusters_ok_shape {sess : TriageSession} {a : ClustersArgs} {req : Request}
    (h : clusters sess a = Except.ok req) :
    req.method = "GET" ∧ req.headers = jsonHeaders sess ∧ ∃ t, req.url = mkUrl sess t := by
  unfold clusters at h
  cases hv : clustersValidate a <;> rw [hv] at h
  · exact absurd h (by simp)
  · cases hp : clustersParams a <;> rw [hp] at h
    · exact absurd h (by simp)
    · injection h with h
      subst h
      exact ⟨rfl, rfl, ⟨_, rfl⟩⟩

/-- Same shape fact for `integration_search` (headers are the JSON
headers; the URL is rooted the same way). -/
theorem integration_ok_shape {sess : TriageSession} {sha256 md5 searchurl : PyVal}
    {req : Request} (h : integration_search sess sha256 md5 searchurl = Except.ok req) :
    req.method = "GET" ∧ req.headers = jsonHeaders sess ∧ ∃ t, req.url = mkUrl sess t := by
  unfold integration_search at h
  split at h
  · injection h
  split at h
  · injection h
  split at h
  · injection h
  split at h
  · injection h
  split at h
  · injection h
  split at h
  · injection h
  injection h with h
  subst h
  exact ⟨rfl, rfl, ⟨_, rfl⟩⟩

/-- A concrete session over HTTPS, used by witnesses. -/
def sessW : TriageSession := TriageSession.mk "box.example" "user" "key" true "agent"

/-- A concrete session over plain HTTP, used by witnesses and
counterexamples. -/
def sessW0 : TriageSession := TriageSession.mk "box.example" "user" "key" false "agent"

/-- Same shape fact for `attachment` (headers are the base headers plus
the caller-supplied `Content-Type`). -/
theorem attachment_ok_shape {sess : TriageSession} {aid mt : PyVal} {req : Request}
    (h : attachment sess aid mt = Except.ok req) :
    req.method = "GET" ∧
      req.headers = sessionHeaders sess ++ [("Content-Type", mt.asStr)] ∧
      ∃ t, req.url = mkUrl sess t := by
  unfold attachment at h
  split at h
  · exact absurd h (by simp)
  · split at h
    · exact absurd h (by simp)
    · injection h with h
      subst h
      exact ⟨rfl, rfl, ⟨_, rfl⟩⟩

/-- The query-string contribution of one optional parameter: exactly the
given key=value rendering when the supplied value is truthy, nothing when
it is falsy. -/
def segIf (b : Bool) (kv : String) : List String :=
  if b then [kv] else []

/-- The endpoint tail chosen by the list operations: the bare endpoint
(no `?` at all) when no parameter was included, otherwise the `?` form
(withQ, the bare path followed by `?`) with the parameters joined by
`&`. -/
def queryOrBare (bare withQ : String) (L : List String) : String :=
  if L = [] then bare else withQ ++ String.intercalate "&" L

theorem truthy_none : PyVal.none.truthy = false := rfl

/-- A valid optional integer argument (either falsy or the supplied
integer) never trips an `isinstance(..., int)` guard. -/
theorem int_guard_false {v : PyVal} {n : Int}
    (h : v.truthy = true → v = PyVal.int n) :
    (v.truthy && !v.isInt) = false := by
  cases ht : v.truthy with
  | false => simp [ht]
  | true => simp [h ht, PyVal.isInt]

/-- Likewise for `isinstance(..., str)` guards. -/
theorem str_guard_false {v : PyVal} {s : String}
    (h : v.truthy = true → v = PyVal.str s) :
    (v.truthy && !v.isStr) = false := by
  cases ht : v.truthy with
  | false => simp [ht]
  | true => simp [h ht, PyVal.isStr]

/-- Likewise for `isinstance(..., list)` guards. -/
theorem list_guard_false {v : PyVal} {ts : List String}
    (h : v.truthy = true → v = PyVal.list (ts.map PyVal.str)) :
    (v.truthy && !v.isList) = false := by
  cases ht : v.truthy with
  | false => simp [ht]
  | true => simp [h ht, PyVal.isList]

/-- `strParam` on a valid optional string argument yields the key=value
segment iff the value is truthy, and never an error. -/
theorem strParam_char (k : String) {v : PyVal} {s : String}
    (h : v.truthy = true → v = PyVal.str s) :
    strParam k v = Except.ok (segIf v.truthy (k ++ "=" ++ s)) := by
  cases ht : v.truthy with
  | false => simp [strParam, segIf, ht]
  | true =>
    have hv := h ht
    subst hv
    simp [strParam, segIf, ht]

/-- `intParam` on a valid optional integer argument. -/
theorem intParam_char (k : String) {v : PyVal} {n : Int}
    (h : v.truthy = true → v = PyVal.int n) :
    intParam k v = segIf v.truthy (k ++ "=" ++ toString n) := by
  cases ht : v.truthy with
  | false => simp [intParam, segIf, ht]
  | true =>
    have hv := h ht
    subst hv
    simp [intParam, segIf, ht, pyStr]

/-- `tagsParam` on a valid optional list-of-strings argument. -/
theorem tagsParam_char {v : PyVal} {ts : List String}
    (h : v.truthy = true → v = PyVal.list (ts.map PyVal.str)) :
    tagsParam v = Except.ok (segIf v.truthy ("tags=" ++ String.intercalate "," ts)) := by
  cases ht : v.truthy with
  | false => simp [tagsParam, segIf, ht]
  | true =>
    have hv := h ht
    subst hv
    simp [tagsParam, segIf, ht, joinComma, strElems_map_str]

/-- The branch on a non-empty params list is `queryOrBare`. -/
theorem ifQuery_eq (bare withQ : String) (L : List String) :
    (if L ≠ [] then withQ ++ String.intercalate "&" L else bare) =
      queryOrBare bare withQ L := by
  by_cases hL : L = [] <;> simp [queryOrBare, hL]

/-- With `report_id` falsy, `reportsTail` is `queryOrBare` of the reports
endpoint. -/
theorem reportsTail_noid (a : ReportsArgs) (h : a.report_id.truthy = false)
    (L : List String) :
    reportsTail a L =
      queryOrBare "/api/public/v1/reports" "/api/public/v1/reports?" L := by
  unfold reportsTail queryOrBare
  rw [h]
  by_cases hL : L = []
  · simp [hL]
  · simp [hL]

/-- `reports` on any mix of supplied (well-typed truthy) and absent
(arbitrary falsy) filters, with `report_id` absent: no error is raised,
the query string contains exactly the truthy parameters, each rendered as
key=value and joined by `&` in the fixed append order tags, page,
per_page, start_date, end_date, match_priority, category_id, and with
nothing included the URL is the bare endpoint without `?`. -/
theorem reports_general (sess : TriageSession) (mp cid sd tg ed pg pp : PyVal)
    (tts : List String) (ssd sed : String) (nmp ncid npg npp : Int)
    (hmp : mp.truthy = true → mp = PyVal.int nmp)
    (hcid : cid.truthy = true → cid = PyVal.int ncid)
    (hsd : sd.truthy = true → sd = PyVal.str ssd)
    (htg : tg.truthy = true → tg = PyVal.list (tts.map PyVal.str))
    (hed : ed.truthy = true → ed = PyVal.str sed)
    (hpg : pg.truthy = true → pg = PyVal.int npg)
    (hpp : pp.truthy = true → pp = PyVal.int npp) :
    reports sess (ReportsArgs.mk mp cid sd tg ed pg pp PyVal.none) =
      Except.ok (Request.mk "GET"
        (mkUrl sess (queryOrBare "/api/public/v1/reports" "/api/public/v1/reports?"
          (segIf tg.truthy ("tags=" ++ String.intercalate "," tts) ++
           segIf pg.truthy ("page=" ++ toString npg) ++
           segIf pp.truthy ("per_page=" ++ toString npp) ++
           segIf sd.truthy ("start_date=" ++ ssd) ++
           segIf ed.truthy ("end_date=" ++ sed) ++
           segIf mp.truthy ("match_priority=" ++ toString nmp) ++
           segIf cid.truthy ("category_id=" ++ toString ncid))))
        (jsonHeaders sess)) := by
  have hval : reportsValidate (ReportsArgs.mk mp cid sd tg ed pg pp PyVal.none) =
      Except.ok () := by
    simp [reportsValidate, list_guard_false htg, int_guard_false hpg,
      int_guard_false hpp, str_guard_false hsd, str_guard_false hed,
      int_guard_false hcid, int_guard_false hmp, truthy_none]
  have hp : reportsParams (ReportsArgs.mk mp cid sd tg ed pg pp PyVal.none) =
      Except.ok
        (segIf tg.truthy ("tags=" ++ String.intercalate "," tts) ++
         segIf pg.truthy ("page=" ++ toString npg) ++
         segIf pp.truthy ("per_page=" ++ toString npp) ++
         segIf sd.truthy ("start_date=" ++ ssd) ++
         segIf ed.truthy ("end_date=" ++ sed) ++
         segIf mp.truthy ("match_priority=" ++ toString nmp) ++
         segIf cid.truthy ("category_id=" ++ toString ncid)) := by
    simp [reportsParams, tagsParam_char htg, strParam_char "start_date" hsd,
      strParam_char "end_date" hed, intParam_char "page" hpg,
      intParam_char "per_page" hpp, intParam_char "match_priority" hmp,
      intParam_char "category_id" hcid]
  simp only [reports, hval, hp]
  rw [reportsTail_noid (ReportsArgs.mk mp cid sd tg ed pg pp PyVal.none) rfl]

/-- Same for `processed_reports`: its fixed append order is tags, page,
per_page, start_date, end_date, category_id, match_priority (the last two
swapped relative to `reports`). -/
theorem processed_general (sess : TriageSession) (mp cid sd tg ed pg pp : PyVal)
    (tts : List String) (ssd sed : String) (nmp ncid npg npp : Int)
    (hmp : mp.truthy = true → mp = PyVal.int nmp)
    (hcid : cid.truthy = true → cid = PyVal.int ncid)
    (hsd : sd.truthy = true → sd = PyVal.str ssd)
    (htg : tg.truthy = true → tg = PyVal.list (tts.map PyVal.str))
    (hed : ed.truthy = true → ed = PyVal.str sed)
    (hpg : pg.truthy = true → pg = PyVal.int npg)
    (hpp : pp.truthy = true → pp = PyVal.int npp) :
    processed_reports sess (ProcessedArgs.mk mp cid sd tg ed pg pp) =
      Except.ok (Request.mk "GET"
        (mkUrl sess (queryOrBare "/api/public/v1/processed_reports"
          "/api/public/v1/processed_reports?"
          (segIf tg.truthy ("tags=" ++ String.intercalate "," tts) ++
           segIf pg.truthy ("page=" ++ toString npg) ++
           segIf pp.truthy ("per_page=" ++ toString npp) ++
           segIf sd.truthy ("start_date=" ++ ssd) ++
           segIf ed.truthy ("end_date=" ++ sed) ++
           segIf cid.truthy ("category_id=" ++ toString ncid) ++
           segIf mp.truthy ("match_priority=" ++ toString nmp))))
        (jsonHeaders sess)) := by
  have hval : processedValidate (ProcessedArgs.mk mp cid sd tg ed pg pp) =
      Except.ok () := by
    simp [processedValidate, list_guard_false htg, int_guard_false hpg,
      int_guard_false hpp, str_guard_false hsd, str_guard_false hed,
      int_guard_false hcid, int_guard_false hmp]
  have hp : processedParams (ProcessedArgs.mk mp cid sd tg ed pg pp) =
      Except.ok
        (segIf tg.truthy ("tags=" ++ String.intercalate "," tts) ++
         segIf pg.truthy ("page=" ++ toString npg) ++
         segIf pp.truthy ("per_page=" ++ toString npp) ++
         segIf sd.truthy ("start_date=" ++ ssd) ++
         segIf ed.truthy ("end_date=" ++ sed) ++
         segIf cid.truthy ("category_id=" ++ toString ncid) ++
         segIf mp.truthy ("match_priority=" ++ toString nmp)) := by
    simp [processedParams, tagsParam_char htg, strParam_char "start_date" hsd,
      strParam_char "end_date" hed, intParam_char "page" hpg,
      intParam_char "per_page" hpp, intParam_char "match_priority" hmp,
      intParam_char "category_id" hcid]
  simp only [processed_reports, hval, hp]
  rw [ifQuery_eq]

/-- Same for `inbox_reports`: fixed append order page, per_page,
start_date, end_date, match_priority. -/
theorem inbox_general (sess : TriageSession) (mp sd ed pg pp : PyVal)
    (ssd sed : String) (nmp npg npp : Int)
    (hmp : mp.truthy = true → mp = PyVal.int nmp)
    (hsd : sd.truthy = true → sd = PyVal.str ssd)
    (hed : ed.truthy = true → ed = PyVal.str sed)
    (hpg : pg.truthy = true → pg = PyVal.int npg)
    (hpp : pp.truthy = true → pp = PyVal.int npp) :
    inbox_reports sess (InboxArgs.mk mp sd ed pg pp) =
      Except.ok (Request.mk "GET"
        (mkUrl sess (queryOrBare "/api/public/v1/inbox_reports"
          "/api/public/v1/inbox_reports?"
          (segIf pg.truthy ("page=" ++ toString npg) ++
           segIf pp.truthy ("per_page=" ++ toString npp) ++
           segIf sd.truthy ("start_date=" ++ ssd) ++
           segIf ed.truthy ("end_date=" ++ sed) ++
           segIf mp.truthy ("match_priority=" ++ toString nmp))))
        (jsonHeaders sess)) := by
  have hval : inboxValidate (InboxArgs.mk mp sd ed pg pp) = Except.ok () := by
    simp [inboxValidate, int_guard_false hpg, int_guard_false hpp,
      str_guard_false hsd, str_guard_false hed, int_guard_false hmp]
  have hp : inboxParams (InboxArgs.mk mp sd ed pg pp) =
      Except.ok
        (segIf pg.truthy ("page=" ++ toString npg) ++
         segIf pp.truthy ("per_page=" ++ toString npp) ++
         segIf sd.truthy ("start_date=" ++ ssd) ++
         segIf ed.truthy ("end_date=" ++ sed) ++
         segIf mp.truthy ("match_priority=" ++ toString nmp)) := by
    simp [inboxParams, strParam_char "start_date" hsd, strParam_char "end_date" hed,
      intParam_char "page" hpg, intParam_char "per_page" hpp,
      intParam_char "match_priority" hmp]
  simp only [inbox_reports, hval, hp]
  rw [ifQuery_eq]

/-- Same for `clusters` (whose `tags` is a plain string): fixed append
order tags, page, per_page, start_date, end_date, match_priority. -/
theorem clusters_general (sess : TriageSession) (mp sd ed pg pp tg : PyVal)
    (stg ssd sed : String) (nmp npg npp : Int)
    (hmp : mp.truthy = true → mp = PyVal.int nmp)
    (hsd : sd.truthy = true → sd = PyVal.str ssd)
    (hed : ed.truthy = true → ed = PyVal.str sed)
    (hpg : pg.truthy = true → pg = PyVal.int npg)
    (hpp : pp.truthy = true → pp = PyVal.int npp)
    (htg : tg.truthy = true → tg = PyVal.str stg) :
    clusters sess (ClustersArgs.mk mp sd ed pg pp tg) =
      Except.ok (Request.mk "GET"
        (mkUrl sess (queryOrBare "/api/public/v1/clusters"
          "/api/public/v1/clusters?"
          (segIf tg.truthy ("tags=" ++ stg) ++
           segIf pg.truthy ("page=" ++ toString npg) ++
           segIf pp.truthy ("per_page=" ++ toString npp) ++
           segIf sd.truthy ("start_date=" ++ ssd) ++
           segIf ed.truthy ("end_date=" ++ sed) ++
           segIf mp.truthy ("match_priority=" ++ toString nmp))))
        (jsonHeaders sess)) := by
  have hval : clustersValidate (ClustersArgs.mk mp sd ed pg pp tg) =
      Except.ok () := by
    simp [clustersValidate, str_guard_false htg, int_guard_false hpg,
      int_guard_false hpp, str_guard_false hsd, str_guard_false hed,
      int_guard_false hmp]
  have hp : clustersParams (ClustersArgs.mk mp sd ed pg pp tg) =
      Except.ok
        (segIf tg.truthy ("tags=" ++ stg) ++
         segIf pg.truthy ("page=" ++ toString npg) ++
         segIf pp.truthy ("per_page=" ++ toString npp) ++
         segIf sd.truthy ("start_date=" ++ ssd) ++
         segIf ed.truthy ("end_date=" ++ sed) ++
         segIf mp.truthy ("match_priority=" ++ toString nmp)) := by
    simp [clustersParams, strParam_char "tags" htg, strParam_char "start_date" hsd,
      strParam_char "end_date" hed, intParam_char "page" hpg,
      intParam_char "per_page" hpp, intParam_char "match_priority" hmp]
  simp only [clusters, hval, hp]
  rw [ifQuery_eq]

/-- Same for `integration_search` on valid optional string arguments: the
all-None call raises the usage `ValueError`; otherwise no error, and the
URL always carries `?` followed by exactly the truthy parameters joined by
`&` in the fixed order searchurl, md5, sha256. -/
theorem integration_general (sess : TriageSession) (sha md5v su : PyVal)
    (s3 m2 u1 : String)
    (hsha : sha.truthy = true → sha = PyVal.str s3)
    (hmd5 : md5v.truthy = true → md5v = PyVal.str m2)
    (hsu : su.truthy = true → su = PyVal.str u1) :
    integration_search sess sha md5v su =
      (if (sha.isNone && md5v.isNone && su.isNone) = true then
        Except.error (PyExc.valueError
          "triagelibTriage.integration_search takes exactly 1 argument. You gave none.")
      else
        Except.ok (Request.mk "GET"
          (mkUrl sess ("/api/public/v1/integration_search?" ++
            String.intercalate "&"
              (segIf su.truthy ("searchurl=" ++ u1) ++
               segIf md5v.truthy ("md5=" ++ m2) ++
               segIf sha.truthy ("sha256=" ++ s3))))
          (jsonHeaders sess))) := by
  simp [integration_search, strParam_char "searchurl" hsu,
    strParam_char "md5" hmd5, strParam_char "sha256" hsha,
    str_guard_false hmd5, str_guard_false hsu]

/-! ## Claims -/

/-- C1: For every completed HTTP response, `_reqsend` maps the status code
to exactly one outcome: 200 proceeds to body handling; 401 raises
`TriageAuthError` (called `AuthenticationError` by the spec); every 4xx other
than 401 raises `TriageClientError` (`ClientError`); every 5xx raises
`TriageServerError` (`ServerError`); every other non-200 status raises
the bare `TriageError` (the generic `ProtocolError` of the spec); and every
raised error is a subclass of `TriageError`. -/
theorem c1_response_classification (sess : TriageSession) (resp : HttpResponse)
    (host : String) :
    (resp.status = 200 → reqsend sess resp host = Except.ok resp)
  ∧ (resp.status = 401 →
      reqsend sess resp host =
        Except.error (PyExc.triage ExcCls.authError (authMsg host)))
  ∧ (400 ≤ resp.status → resp.status < 500 → resp.status ≠ 401 →
      reqsend sess resp host =
        Except.error (PyExc.triage ExcCls.clientError (httpErrMsg sess resp.status)))
  ∧ (500 ≤ resp.status → resp.status < 600 →
      reqsend sess resp host =
        Except.error (PyExc.triage ExcCls.serverError (httpErrMsg sess resp.status)))
  ∧ (resp.status ≠ 200 → ¬(400 ≤ resp.status ∧ resp.status < 500) →
      ¬(500 ≤ resp.status ∧ resp.status < 600) →
      reqsend sess resp host =
        Except.error (PyExc.triage ExcCls.triageError (httpErrMsg sess resp.status)))
  ∧ (∀ cls msg, reqsend sess resp host = Except.error (PyExc.triage cls msg) →
      isSubclassOf cls ExcCls.triageError = true) := by
  refine ⟨?_, ?_, ?_, ?_, ?_, ?_⟩
  · intro h
    simp [reqsend, h]
  · intro h
    simp [reqsend, h]
  · intro h1 h2 h3
    have h200 : resp.status ≠ 200 := by omega
    simp [reqsend, h1, h2, h3, h200]
  · intro h1 h2
    have h200 : resp.status ≠ 200 := by omega
    have h401 : resp.status ≠ 401 := by omega
    have h4xx : ¬(400 ≤ resp.status ∧ resp.status < 500) := by omega
    simp [reqsend, h1, h2, h200, h401, h4xx]
  · intro h200 h4xx h5xx
    have h401 : resp.status ≠ 401 := by omega
    simp [reqsend, h200, h401, h4xx, h5xx]
  · intro cls msg h
    unfold reqsend at h
    split_ifs at h
    all_goals
      (simp only [Except.error.injEq, PyExc.triage.injEq] at h
       obtain ⟨hcls, hmsg⟩ := h
       subst hcls
       decide)

/-- Witness for C1 at statuses 200, 401, 404, 503 and 302, plus the
subclass fact for the 401 outcome. -/
theorem c1_witness :
    reqsend sessW (HttpResponse.mk 200 "b" [1, 2]) "box.example" =
      Except.ok (HttpResponse.mk 200 "b" [1, 2])
  ∧ reqsend sessW (HttpResponse.mk 401 "b" []) "box.example" =
      Except.error (PyExc.triage ExcCls.authError (authMsg "box.example"))
  ∧ reqsend sessW (HttpResponse.mk 404 "b" []) "box.example" =
      Except.error (PyExc.triage ExcCls.clientError (httpErrMsg sessW 404))
  ∧ reqsend sessW (HttpResponse.mk 503 "b" []) "box.example" =
      Except.error (PyExc.triage ExcCls.serverError (httpErrMsg sessW 503))
  ∧ reqsend sessW (HttpResponse.mk 302 "b" []) "box.example" =
      Except.error (PyExc.triage ExcCls.triageError (httpErrMsg sessW 302))
  ∧ isSubclassOf ExcCls.authError ExcCls.triageError = true :=
  ⟨(c1_response_classification sessW (HttpResponse.mk 200 "b" [1, 2]) "box.example").1 rfl,
   (c1_response_classification sessW (HttpResponse.mk 401 "b" []) "box.example").2.1 rfl,
   (c1_response_classification sessW (HttpResponse.mk 404 "b" []) "box.example").2.2.1
     (by decide) (by decide) (by decide),
   (c1_response_classification sessW (HttpResponse.mk 503 "b" []) "box.example").2.2.2.1
     (by decide) (by decide),
   (c1_response_classification sessW (HttpResponse.mk 302 "b" []) "box.example").2.2.2.2.1
     (by decide) (by decide) (by decide),
   (c1_response_classification sessW (HttpResponse.mk 401 "b" []) "box.example").2.2.2.2.2
     ExcCls.authError (authMsg "box.example")
     ((c1_response_classification sessW (HttpResponse.mk 401 "b" []) "box.example").2.1 rfl)⟩

/-- C2 counterexample: `integration_search(md5="x", sha256="y")` — two of
the three one-of parameters supplied — raises nothing: the call builds and
returns a request (the source only checks `count(None) == 3`). -/
theorem c2_counterexample :
    integration_search sessW0 (PyVal.str "y") (PyVal.str "x") PyVal.none =
      Except.ok (Request.mk "GET"
        "http://box.example/api/public/v1/integration_search?md5=x&sha256=y"
        (jsonHeaders sessW0)) := rfl

/-- C2 amended: `integration_search` raises a `ValueError` (its
`InvalidArgument`-style usage error), before any network I/O, when all
three of sha256, md5, searchurl are `None`; supplying more than one raises
no error — all truthy values are sent in one query. -/
theorem c2_amended (sess : TriageSession) (m s : String) (hm : m ≠ "") (hs : s ≠ "") :
    integration_search sess PyVal.none PyVal.none PyVal.none =
      Except.error (PyExc.valueError
        "triagelibTriage.integration_search takes exactly 1 argument. You gave none.")
  ∧ integration_search sess (PyVal.str s) (PyVal.str m) PyVal.none =
      Except.ok (Request.mk "GET"
        (mkUrl sess ("/api/public/v1/integration_search?" ++
          String.intercalate "&" ["md5=" ++ m, "sha256=" ++ s]))
        (jsonHeaders sess)) := by
  constructor
  · rfl
  · simp [integration_search, strParam, PyVal.truthy, PyVal.isStr, PyVal.isNone, hm, hs]

/-- Witness for C2 amended at md5="x", sha256="y". -/
theorem c2_witness :
    "x" ≠ "" ∧ "y" ≠ "" ∧
    integration_search sessW (PyVal.str "y") (PyVal.str "x") PyVal.none =
      Except.ok (Request.mk "GET"
        (mkUrl sessW ("/api/public/v1/integration_search?" ++
          String.intercalate "&" ["md5=" ++ "x", "sha256=" ++ "y"]))
        (jsonHeaders sessW)) :=
  ⟨by decide, by decide,
   (c2_amended sessW "x" "y" (by decide) (by decide)).2⟩

/-- C3 (code bug): supplying a truthy value of the wrong declared type is
supposed to raise an error identifying the parameter name and expected
type, before any network call.  `integration_search(sha256=123)` instead
raises the bare concatenation `TypeError` (naming nothing): the source
builds the query string before validating, and its sha256 `isinstance`
check actually tests `md5`. -/
theorem c3_sha256_concat_typeerror :
    integration_search sessW (PyVal.int 123) PyVal.none PyVal.none =
      Except.error PyExc.concatTypeError := rfl

/-- C4 counterexample: with `tags=["a"]` and `start_date="d"` supplied,
`reports` renders `tags=a&start_date=d`, while the claimed declaration
order (match_priority, category_id, start_date, tags, end_date, page,
per_page) would put `start_date=d` before `tags=a`. -/
theorem c4_counterexample :
    reports sessW0 (ReportsArgs.mk PyVal.none PyVal.none (PyVal.str "d")
        (PyVal.list [PyVal.str "a"]) PyVal.none PyVal.none PyVal.none PyVal.none) =
      Except.ok (Request.mk "GET"
        "http://box.example/api/public/v1/reports?tags=a&start_date=d"
        (jsonHeaders sessW0))
  ∧ "http://box.example/api/public/v1/reports?tags=a&start_date=d" ≠
      "http://box.example/api/public/v1/reports?start_date=d&tags=a" :=
  ⟨rfl, by decide⟩

/-- C4 amended: for every query-building operation and every combination
of supplied parameters (each optional parameter either absent-falsy or a
well-typed truthy value), the query string joins exactly the included
parameters with `&`, each rendered as `key=value`, in the fixed append
order of the implementation — reports: tags, page, per_page, start_date,
end_date, match_priority, category_id; processed_reports: tags, page,
per_page, start_date, end_date, category_id, match_priority;
inbox_reports: page, per_page, start_date, end_date, match_priority;
clusters: tags, page, per_page, start_date, end_date, match_priority;
integration_search: searchurl, md5, sha256 — not in the declaration order
of the parameter lists (attachment builds no query string). -/
theorem c4_query_order :
    (∀ (sess : TriageSession) (mp cid sd tg ed pg pp : PyVal)
      (tts : List String) (ssd sed : String) (nmp ncid npg npp : Int),
      (mp.truthy = true → mp = PyVal.int nmp) →
      (cid.truthy = true → cid = PyVal.int ncid) →
      (sd.truthy = true → sd = PyVal.str ssd) →
      (tg.truthy = true → tg = PyVal.list (tts.map PyVal.str)) →
      (ed.truthy = true → ed = PyVal.str sed) →
      (pg.truthy = true → pg = PyVal.int npg) →
      (pp.truthy = true → pp = PyVal.int npp) →
      reports sess (ReportsArgs.mk mp cid sd tg ed pg pp PyVal.none) =
        Except.ok (Request.mk "GET"
          (mkUrl sess (queryOrBare "/api/public/v1/reports" "/api/public/v1/reports?"
            (segIf tg.truthy ("tags=" ++ String.intercalate "," tts) ++
             segIf pg.truthy ("page=" ++ toString npg) ++
             segIf pp.truthy ("per_page=" ++ toString npp) ++
             segIf sd.truthy ("start_date=" ++ ssd) ++
             segIf ed.truthy ("end_date=" ++ sed) ++
             segIf mp.truthy ("match_priority=" ++ toString nmp) ++
             segIf cid.truthy ("category_id=" ++ toString ncid))))
          (jsonHeaders sess)))
  ∧ (∀ (sess : TriageSession) (mp cid sd tg ed pg pp : PyVal)
      (tts : List String) (ssd sed : String) (nmp ncid npg npp : Int),
      (mp.truthy = true → mp = PyVal.int nmp) →
      (cid.truthy = true → cid = PyVal.int ncid) →
      (sd.truthy = true → sd = PyVal.str ssd) →
      (tg.truthy = true → tg = PyVal.list (tts.map PyVal.str)) →
      (ed.truthy = true → ed = PyVal.str sed) →
      (pg.truthy = true → pg = PyVal.int npg) →
      (pp.truthy = true → pp = PyVal.int npp) →
      processed_reports sess (ProcessedArgs.mk mp cid sd tg ed pg pp) =
        Except.ok (Request.mk "GET"
          (mkUrl sess (queryOrBare "/api/public/v1/processed_reports"
            "/api/public/v1/processed_reports?"
            (segIf tg.truthy ("tags=" ++ String.intercalate "," tts) ++
             segIf pg.truthy ("page=" ++ toString npg) ++
             segIf pp.truthy ("per_page=" ++ toString npp) ++
             segIf sd.truthy ("start_date=" ++ ssd) ++
             segIf ed.truthy ("end_date=" ++ sed) ++
             segIf cid.truthy ("category_id=" ++ toString ncid) ++
             segIf mp.truthy ("match_priority=" ++ toString nmp))))
          (jsonHeaders sess)))
  ∧ (∀ (sess : TriageSession) (mp sd ed pg pp : PyVal)
      (ssd sed : String) (nmp npg npp : Int),
      (mp.truthy = true → mp = PyVal.int nmp) →
      (sd.truthy = true → sd = PyVal.str ssd) →
      (ed.truthy = true → ed = PyVal.str sed) →
      (pg.truthy = true → pg = PyVal.int npg) →
      (pp.truthy = true → pp = PyVal.int npp) →
      inbox_reports sess (InboxArgs.mk mp sd ed pg pp) =
        Except.ok (Request.mk "GET"
          (mkUrl sess (queryOrBare "/api/public/v1/inbox_reports"
            "/api/public/v1/inbox_reports?"
            (segIf pg.truthy ("page=" ++ toString npg) ++
             segIf pp.truthy ("per_page=" ++ toString npp) ++
             segIf sd.truthy ("start_date=" ++ ssd) ++
             segIf ed.truthy ("end_date=" ++ sed) ++
             segIf mp.truthy ("match_priority=" ++ toString nmp))))
          (jsonHeaders sess)))
  ∧ (∀ (sess : TriageSession) (mp sd ed pg pp tg : PyVal)
      (stg ssd sed : String) (nmp npg npp : Int),
      (mp.truthy = true → mp = PyVal.int nmp) →
      (sd.truthy = true → sd = PyVal.str ssd) →
      (ed.truthy = true → ed = PyVal.str sed) →
      (pg.truthy = true → pg = PyVal.int npg) →
      (pp.truthy = true → pp = PyVal.int npp) →
      (tg.truthy = true → tg = PyVal.str stg) →
      clusters sess (ClustersArgs.mk mp sd ed pg pp tg) =
        Except.ok (Request.mk "GET"
          (mkUrl sess (queryOrBare "/api/public/v1/clusters"
            "/api/public/v1/clusters?"
            (segIf tg.truthy ("tags=" ++ stg) ++
             segIf pg.truthy ("page=" ++ toString npg) ++
             segIf pp.truthy ("per_page=" ++ toString npp) ++
             segIf sd.truthy ("start_date=" ++ ssd) ++
             segIf ed.truthy ("end_date=" ++ sed) ++
             segIf mp.truthy ("match_priority=" ++ toString nmp))))
          (jsonHeaders sess)))
  ∧ (∀ (sess : TriageSession) (sha md5v su : PyVal) (s3 m2 u1 : String),
      (sha.truthy = true → sha = PyVal.str s3) →
      (md5v.truthy = true → md5v = PyVal.str m2) →
      (su.truthy = true → su = PyVal.str u1) →
      integration_search sess sha md5v su =
        (if (sha.isNone && md5v.isNone && su.isNone) = true then
          Except.error (PyExc.valueError
            "triagelibTriage.integration_search takes exactly 1 argument. You gave none.")
        else
          Except.ok (Request.mk "GET"
            (mkUrl sess ("/api/public/v1/integration_search?" ++
              String.intercalate "&"
                (segIf su.truthy ("searchurl=" ++ u1) ++
                 segIf md5v.truthy ("md5=" ++ m2) ++
                 segIf sha.truthy ("sha256=" ++ s3))))
            (jsonHeaders sess)))) :=
  ⟨reports_general, processed_general, inbox_general, clusters_general,
   integration_general⟩

/-- Witness for C4 amended: a mixed-combination reports call showing tags
rendered before start_date (against declaration order), and a
processed_reports call showing category_id rendered before
match_priority. -/
theorem c4_witness :
    reports sessW0 (ReportsArgs.mk (PyVal.int 1) PyVal.none (PyVal.str "d")
        (PyVal.list [PyVal.str "a"]) PyVal.none PyVal.none PyVal.none PyVal.none) =
      Except.ok (Request.mk "GET"
        "http://box.example/api/public/v1/reports?tags=a&start_date=d&match_priority=1"
        (jsonHeaders sessW0))
  ∧ processed_reports sessW0 (ProcessedArgs.mk (PyVal.int 5) (PyVal.int 4)
        PyVal.none PyVal.none PyVal.none PyVal.none PyVal.none) =
      Except.ok (Request.mk "GET"
        "http://box.example/api/public/v1/processed_reports?category_id=4&match_priority=5"
        (jsonHeaders sessW0)) :=
  ⟨c4_query_order.1 sessW0 (PyVal.int 1) PyVal.none (PyVal.str "d")
     (PyVal.list [PyVal.str "a"]) PyVal.none PyVal.none PyVal.none
     ["a"] "d" "" 1 0 0 0
     (fun _ => rfl) (fun h => nomatch h) (fun _ => rfl) (fun _ => rfl)
     (fun h => nomatch h) (fun h => nomatch h) (fun h => nomatch h),
   c4_query_order.2.1 sessW0 (PyVal.int 5) (PyVal.int 4) PyVal.none PyVal.none
     PyVal.none PyVal.none PyVal.none [] "" "" 5 4 0 0
     (fun _ => rfl) (fun _ => rfl) (fun h => nomatch h) (fun h => nomatch h)
     (fun h => nomatch h) (fun h => nomatch h) (fun h => nomatch h)⟩

/-- C5: whenever `report_id` is supplied (truthy), the constructed URL is
the by-id path `/reports/{report_id}` with no query string, whatever other
filters were supplied; when `report_id` is absent, the list form (bare
endpoint or `?`-query) is used. -/
theorem c5_report_id_path (sess : TriageSession) (a : ReportsArgs) (req : Request)
    (h : reports sess a = Except.ok req) :
    (a.report_id.truthy = true →
      req.url = mkUrl sess ("/api/public/v1/reports/" ++ pyStr a.report_id))
  ∧ (a.report_id.truthy = false →
      req.url = mkUrl sess "/api/public/v1/reports" ∨
        ∃ q, req.url = mkUrl sess ("/api/public/v1/reports?" ++ q)) := by
  unfold reports at h
  cases hv : reportsValidate a <;> rw [hv] at h
  · injection h
  · cases hp : reportsParams a <;> rw [hp] at h
    · injection h
    · injection h with h
      subst h
      constructor
      · intro ht
        simp [reportsTail, ht]
      · intro hf
        simp only [reportsTail, hf, Bool.false_eq_true, if_false]
        split
        · exact Or.inr ⟨_, rfl⟩
        · exact Or.inl rfl

/-- Witness for C5: `report_id=42` with `page=2` also supplied yields the
by-id URL. -/
theorem c5_witness :
    reports sessW (ReportsArgs.mk PyVal.none PyVal.none PyVal.none PyVal.none
        PyVal.none (PyVal.int 2) PyVal.none (PyVal.int 42)) =
      Except.ok (Request.mk "GET"
        "https://box.example/api/public/v1/reports/42" (jsonHeaders sessW))
  ∧ (Request.mk "GET" "https://box.example/api/public/v1/reports/42"
        (jsonHeaders sessW)).url =
      mkUrl sessW ("/api/public/v1/reports/" ++ pyStr (PyVal.int 42)) :=
  ⟨rfl,
   (c5_report_id_path sessW
     (ReportsArgs.mk PyVal.none PyVal.none PyVal.none PyVal.none
       PyVal.none (PyVal.int 2) PyVal.none (PyVal.int 42))
     (Request.mk "GET" "https://box.example/api/public/v1/reports/42"
       (jsonHeaders sessW)) rfl).1 rfl⟩

/-- All eight `reports` arguments are falsy (Python-absent). -/
def ReportsArgs.allFalsy (a : ReportsArgs) : Prop :=
  a.match_priority.truthy = false ∧ a.category_id.truthy = false ∧
  a.start_date.truthy = false ∧ a.tags.truthy = false ∧
  a.end_date.truthy = false ∧ a.page.truthy = false ∧
  a.per_page.truthy = false ∧ a.report_id.truthy = false

/-- All seven `processed_reports` arguments are falsy. -/
def ProcessedArgs.allFalsy (a : ProcessedArgs) : Prop :=
  a.match_priority.truthy = false ∧ a.category_id.truthy = false ∧
  a.start_date.truthy = false ∧ a.tags.truthy = false ∧
  a.end_date.truthy = false ∧ a.page.truthy = false ∧ a.per_page.truthy = false

/-- All five `inbox_reports` arguments are falsy. -/
def InboxArgs.allFalsy (a : InboxArgs) : Prop :=
  a.match_priority.truthy = false ∧ a.start_date.truthy = false ∧
  a.end_date.truthy = false ∧ a.page.truthy = false ∧ a.per_page.truthy = false

/-- All six `clusters` arguments are falsy. -/
def ClustersArgs.allFalsy (a : ClustersArgs) : Prop :=
  a.match_priority.truthy = false ∧ a.start_date.truthy = false ∧
  a.end_date.truthy = false ∧ a.page.truthy = false ∧
  a.per_page.truthy = false ∧ a.tags.truthy = false

/-- C6 counterexample: for `integration_search`, a falsy-but-non-None
value (`md5=""`) yields no error yet a URL that still ends in `?` (never
the bare endpoint), and the call with every parameter absent raises
instead of producing any URL. -/
theorem c6_counterexample :
    integration_search sessW0 PyVal.none (PyVal.str "") PyVal.none =
      Except.ok (Request.mk "GET"
        "http://box.example/api/public/v1/integration_search?"
        (jsonHeaders sessW0))
  ∧ "http://box.example/api/public/v1/integration_search?" =
      "http://box.example/api/public/v1/integration_search" ++ "?"
  ∧ integration_search sessW0 PyVal.none PyVal.none PyVal.none =
      Except.error (PyExc.valueError
        "triagelibTriage.integration_search takes exactly 1 argument. You gave none.") :=
  ⟨rfl, rfl, rfl⟩

/-- C6 amended: for every operation with optional query parameters other
than `integration_search` (reports, processed_reports, inbox_reports,
clusters), and for every mix of supplied and absent parameters, a
parameter appears in the query string iff its supplied value is truthy: a
falsy value (0, "", [], None, False — even type-mismatched ones)
contributes nothing to the query string alongside truthy ones and causes
no error, and a call with every optional parameter absent produces the
bare endpoint URL with no `?`.  (`integration_search` is the exception:
its URL always contains `?` and the all-None call raises.) -/
theorem c6_falsy_absent :
    (∀ (sess : TriageSession) (mp cid sd tg ed pg pp : PyVal)
      (tts : List String) (ssd sed : String) (nmp ncid npg npp : Int),
      (mp.truthy = true → mp = PyVal.int nmp) →
      (cid.truthy = true → cid = PyVal.int ncid) →
      (sd.truthy = true → sd = PyVal.str ssd) →
      (tg.truthy = true → tg = PyVal.list (tts.map PyVal.str)) →
      (ed.truthy = true → ed = PyVal.str sed) →
      (pg.truthy = true → pg = PyVal.int npg) →
      (pp.truthy = true → pp = PyVal.int npp) →
      reports sess (ReportsArgs.mk mp cid sd tg ed pg pp PyVal.none) =
        Except.ok (Request.mk "GET"
          (mkUrl sess (queryOrBare "/api/public/v1/reports" "/api/public/v1/reports?"
            (segIf tg.truthy ("tags=" ++ String.intercalate "," tts) ++
             segIf pg.truthy ("page=" ++ toString npg) ++
             segIf pp.truthy ("per_page=" ++ toString npp) ++
             segIf sd.truthy ("start_date=" ++ ssd) ++
             segIf ed.truthy ("end_date=" ++ sed) ++
             segIf mp.truthy ("match_priority=" ++ toString nmp) ++
             segIf cid.truthy ("category_id=" ++ toString ncid))))
          (jsonHeaders sess)))
  ∧ (∀ (sess : TriageSession) (mp cid sd tg ed pg pp : PyVal)
      (tts : List String) (ssd sed : String) (nmp ncid npg npp : Int),
      (mp.truthy = true → mp = PyVal.int nmp) →
      (cid.truthy = true → cid = PyVal.int ncid) →
      (sd.truthy = true → sd = PyVal.str ssd) →
      (tg.truthy = true → tg = PyVal.list (tts.map PyVal.str)) →
      (ed.truthy = true → ed = PyVal.str sed) →
      (pg.truthy = true → pg = PyVal.int npg) →
      (pp.truthy = true → pp = PyVal.int npp) →
      processed_reports sess (ProcessedArgs.mk mp cid sd tg ed pg pp) =
        Except.ok (Request.mk "GET"
          (mkUrl sess (queryOrBare "/api/public/v1/processed_reports"
            "/api/public/v1/processed_reports?"
            (segIf tg.truthy ("tags=" ++ String.intercalate "," tts) ++
             segIf pg.truthy ("page=" ++ toString npg) ++
             segIf pp.truthy ("per_page=" ++ toString npp) ++
             segIf sd.truthy ("start_date=" ++ ssd) ++
             segIf ed.truthy ("end_date=" ++ sed) ++
             segIf cid.truthy ("category_id=" ++ toString ncid) ++
             segIf mp.truthy ("match_priority=" ++ toString nmp))))
          (jsonHeaders sess)))
  ∧ (∀ (sess : TriageSession) (mp sd ed pg pp : PyVal)
      (ssd sed : String) (nmp npg npp : Int),
      (mp.truthy = true → mp = PyVal.int nmp) →
      (sd.truthy = true → sd = PyVal.str ssd) →
      (ed.truthy = true → ed = PyVal.str sed) →
      (pg.truthy = true → pg = PyVal.int npg) →
      (pp.truthy = true → pp = PyVal.int npp) →
      inbox_reports sess (InboxArgs.mk mp sd ed pg pp) =
        Except.ok (Request.mk "GET"
          (mkUrl sess (queryOrBare "/api/public/v1/inbox_reports"
            "/api/public/v1/inbox_reports?"
            (segIf pg.truthy ("page=" ++ toString npg) ++
             segIf pp.truthy ("per_page=" ++ toString npp) ++
             segIf sd.truthy ("start_date=" ++ ssd) ++
             segIf ed.truthy ("end_date=" ++ sed) ++
             segIf mp.truthy ("match_priority=" ++ toString nmp))))
          (jsonHeaders sess)))
  ∧ (∀ (sess : TriageSession) (mp sd ed pg pp tg : PyVal)
      (stg ssd sed : String) (nmp npg npp : Int),
      (mp.truthy = true → mp = PyVal.int nmp) →
      (sd.truthy = true → sd = PyVal.str ssd) →
      (ed.truthy = true → ed = PyVal.str sed) →
      (pg.truthy = true → pg = PyVal.int npg) →
      (pp.truthy = true → pp = PyVal.int npp) →
      (tg.truthy = true → tg = PyVal.str stg) →
      clusters sess (ClustersArgs.mk mp sd ed pg pp tg) =
        Except.ok (Request.mk "GET"
          (mkUrl sess (queryOrBare "/api/public/v1/clusters"
            "/api/public/v1/clusters?"
            (segIf tg.truthy ("tags=" ++ stg) ++
             segIf pg.truthy ("page=" ++ toString npg) ++
             segIf pp.truthy ("per_page=" ++ toString npp) ++
             segIf sd.truthy ("start_date=" ++ ssd) ++
             segIf ed.truthy ("end_date=" ++ sed) ++
             segIf mp.truthy ("match_priority=" ++ toString nmp))))
          (jsonHeaders sess)))
  ∧ (∀ (sess : TriageSession) (a : ReportsArgs), a.allFalsy →
      reports sess a =
        Except.ok (Request.mk "GET" (mkUrl sess "/api/public/v1/reports")
          (jsonHeaders sess)))
  ∧ (∀ (sess : TriageSession) (b : ProcessedArgs), b.allFalsy →
      processed_reports sess b =
        Except.ok (Request.mk "GET" (mkUrl sess "/api/public/v1/processed_reports")
          (jsonHeaders sess)))
  ∧ (∀ (sess : TriageSession) (c : InboxArgs), c.allFalsy →
      inbox_reports sess c =
        Except.ok (Request.mk "GET" (mkUrl sess "/api/public/v1/inbox_reports")
          (jsonHeaders sess)))
  ∧ (∀ (sess : TriageSession) (d : ClustersArgs), d.allFalsy →
      clusters sess d =
        Except.ok (Request.mk "GET" (mkUrl sess "/api/public/v1/clusters")
          (jsonHeaders sess))) := by
  refine ⟨reports_general, processed_general, inbox_general, clusters_general,
    ?_, ?_, ?_, ?_⟩
  · intro sess a ha
    obtain ⟨a1, a2, a3, a4, a5, a6, a7, a8⟩ := ha
    simp [reports, reportsValidate, reportsParams, reportsTail, tagsParam,
      strParam, intParam, a1, a2, a3, a4, a5, a6, a7, a8]
  · intro sess b hb
    obtain ⟨b1, b2, b3, b4, b5, b6, b7⟩ := hb
    simp [processed_reports, processedValidate, processedParams, tagsParam,
      strParam, intParam, b1, b2, b3, b4, b5, b6, b7]
  · intro sess c hc
    obtain ⟨c1, c2, c3, c4, c5⟩ := hc
    simp [inbox_reports, inboxValidate, inboxParams, strParam, intParam,
      c1, c2, c3, c4, c5]
  · intro sess d hd
    obtain ⟨d1, d2, d3, d4, d5, d6⟩ := hd
    simp [clusters, clustersValidate, clustersParams, strParam, intParam,
      d1, d2, d3, d4, d5, d6]

/-- Witness for C6 amended: an `inbox_reports` call mixing one truthy
parameter (page=2) with falsy values of wrong types ("" for per_page and
the integer parameters, [] for end_date) yields exactly `?page=2` and no
error; a `reports` call with falsy values of every kind (0, "", [], None,
False) yields the bare endpoint. -/
theorem c6_witness :
    inbox_reports sessW0 (InboxArgs.mk (PyVal.int 0) (PyVal.str "")
        (PyVal.list []) (PyVal.int 2) (PyVal.str "")) =
      Except.ok (Request.mk "GET"
        "http://box.example/api/public/v1/inbox_reports?page=2"
        (jsonHeaders sessW0))
  ∧ (ReportsArgs.mk (PyVal.int 0) (PyVal.str "") (PyVal.list []) PyVal.none
      (PyVal.bool false) (PyVal.int 0) (PyVal.str "") PyVal.none).allFalsy
  ∧ reports sessW0 (ReportsArgs.mk (PyVal.int 0) (PyVal.str "") (PyVal.list [])
      PyVal.none (PyVal.bool false) (PyVal.int 0) (PyVal.str "") PyVal.none) =
      Except.ok (Request.mk "GET" (mkUrl sessW0 "/api/public/v1/reports")
        (jsonHeaders sessW0)) :=
  ⟨c6_falsy_absent.2.2.1 sessW0 (PyVal.int 0) (PyVal.str "") (PyVal.list [])
     (PyVal.int 2) (PyVal.str "") "" "" 0 2 0
     (fun h => nomatch h) (fun h => nomatch h) (fun h => nomatch h)
     (fun _ => rfl) (fun h => nomatch h),
   ⟨rfl, rfl, rfl, rfl, rfl, rfl, rfl, rfl⟩,
   c6_falsy_absent.2.2.2.2.1 sessW0
     (ReportsArgs.mk (PyVal.int 0) (PyVal.str "") (PyVal.list []) PyVal.none
       (PyVal.bool false) (PyVal.int 0) (PyVal.str "") PyVal.none)
     ⟨rfl, rfl, rfl, rfl, rfl, rfl, rfl, rfl⟩⟩

/-- C7: for a JSON-returning operation (here `reports`), a 200 response
whose body the decoder cannot parse raises the bare `TriageError` (the
generic `ProtocolError` of the spec) whose message names the host; a 200
response with a parseable body returns the decoded JSON value. -/
theorem c7_json_parse (J : Type) (decode : String → Option J)
    (sess : TriageSession) (a : ReportsArgs) (resp : HttpResponse)
    (h200 : resp.status = 200) (hok : (reports sess a).isOk = true) :
    (decode resp.text = Option.none →
      sendAndParse decode sess (reports sess a) resp =
        Except.error (PyExc.triage ExcCls.triageError (jsonErrMsg sess)))
  ∧ (∀ v, decode resp.text = Option.some v →
      sendAndParse decode sess (reports sess a) resp = Except.ok v) := by
  cases hr : reports sess a with
  | error e =>
    rw [hr] at hok
    exact absurd hok (by simp [Except.isOk, Except.toBool])
  | ok req =>
    constructor
    · intro hd
      simp [sendAndParse, hr, reqsend, h200, parseWith, hd]
    · intro v hd
      simp [sendAndParse, hr, reqsend, h200, parseWith, hd]

/-- Witness for C7 with a decoder that accepts only the body "ok". -/
theorem c7_witness :
    (HttpResponse.mk 200 "bad" []).status = 200
  ∧ (reports sessW noReportsArgs).isOk = true
  ∧ sendAndParse (fun s => if s = "ok" then Option.some 7 else Option.none) sessW
      (reports sessW noReportsArgs) (HttpResponse.mk 200 "bad" []) =
      Except.error (PyExc.triage ExcCls.triageError (jsonErrMsg sessW))
  ∧ sendAndParse (fun s => if s = "ok" then Option.some 7 else Option.none) sessW
      (reports sessW noReportsArgs) (HttpResponse.mk 200 "ok" []) =
      Except.ok 7 :=
  ⟨rfl, rfl,
   (c7_json_parse Nat (fun s => if s = "ok" then Option.some 7 else Option.none)
     sessW noReportsArgs (HttpResponse.mk 200 "bad" []) rfl rfl).1 rfl,
   (c7_json_parse Nat (fun s => if s = "ok" then Option.some 7 else Option.none)
     sessW noReportsArgs (HttpResponse.mk 200 "ok" []) rfl rfl).2 7 rfl⟩

/-- C8: `attachment` with an integer id and a string MIME type builds a
request whose `Content-Type` is exactly the caller-supplied MIME type,
whose URL ends in `/attachment/{id}`, and whose 200 response is returned
as the raw bytes, unparsed. -/
theorem c8_attachment_contract (sess : TriageSession) (aid : Int) (mt : String)
    (resp : HttpResponse) (h200 : resp.status = 200) :
    attachment sess (PyVal.int aid) (PyVal.str mt) =
      Except.ok (Request.mk "GET"
        (mkUrl sess ("/api/public/v1/attachment/" ++ toString aid))
        (sessionHeaders sess ++ [("Content-Type", mt)]))
  ∧ (∀ v, ("Content-Type", v) ∈ sessionHeaders sess ++ [("Content-Type", mt)] →
      v = mt)
  ∧ attachmentCall sess (PyVal.int aid) (PyVal.str mt) resp =
      Except.ok resp.content := by
  refine ⟨rfl, ?_, ?_⟩
  · intro v hv
    simp [sessionHeaders, apiver] at hv
    exact hv
  · simp [attachmentCall, attachment, reqsend, h200, PyVal.isStr, PyVal.isInt]

/-- Witness for C8: `attachment(attachment_id=7, mime_type="application/pdf")`. -/
theorem c8_witness :
    (HttpResponse.mk 200 "t" [9, 9]).status = 200
  ∧ attachment sessW (PyVal.int 7) (PyVal.str "application/pdf") =
      Except.ok (Request.mk "GET"
        (mkUrl sessW ("/api/public/v1/attachment/" ++ toString (7 : Int)))
        (sessionHeaders sessW ++ [("Content-Type", "application/pdf")]))
  ∧ attachmentCall sessW (PyVal.int 7) (PyVal.str "application/pdf")
      (HttpResponse.mk 200 "t" [9, 9]) =
      Except.ok (HttpResponse.mk 200 "t" [9, 9]).content :=
  ⟨rfl,
   (c8_attachment_contract sessW 7 "application/pdf"
     (HttpResponse.mk 200 "t" [9, 9]) rfl).1,
   (c8_attachment_contract sessW 7 "application/pdf"
     (HttpResponse.mk 200 "t" [9, 9]) rfl).2.2⟩

/-- The four fixed headers every outbound request must carry: the
versioned Accept type, the pinned API version, the client-identification
header, and the `Token token={email}:{apikey}` authorization. -/
def carriesFixedHeaders (sess : TriageSession) (req : Request) : Prop :=
  ("Accept", "application/vnd.ve.v1.0+json") ∈ req.headers
  ∧ ("VE-API-Version", apiver) ∈ req.headers
  ∧ ("user-agent", sess.uag) ∈ req.headers
  ∧ ("Authorization", "Token token=" ++ sess.email ++ ":" ++ sess.apikey) ∈ req.headers

/-- The request URL starts with `https://` when the transport flag is
set and with `http://` otherwise. -/
def schemeMatchesSsl (sess : TriageSession) (req : Request) : Prop :=
  ∃ rest, req.url = (if sess.ssl then "https://" else "http://") ++ rest

/-- Any request whose headers extend the base headers of the session carries
the four fixed headers. -/
theorem carries_of_base {sess : TriageSession} {req : Request}
    (l : List (String × String))
    (h : req.headers = sessionHeaders sess ++ l) :
    carriesFixedHeaders sess req := by
  unfold carriesFixedHeaders
  rw [h]
  unfold sessionHeaders
  refine ⟨?_, ?_, ?_, ?_⟩ <;> simp

/-- Any request whose URL comes from `mkUrl` respects the transport
flag. -/
theorem schemeMatches_of_mkUrl {sess : TriageSession} {req : Request}
    (t : String) (h : req.url = mkUrl sess t) :
    schemeMatchesSsl sess req :=
  ⟨sess.host ++ t, by rw [h]; unfold mkUrl; rw [scheme_eq]⟩

/-- C9: every outbound request from every operation carries the fixed
header set (versioned Accept, pinned `VE-API-Version`, `user-agent`,
`Authorization: Token token={email}:{apikey}`), and the URL scheme is
https exactly when the transport flag is set. -/
theorem c9_fixed_headers (sess : TriageSession) :
    (∀ a req, reports sess a = Except.ok req →
      carriesFixedHeaders sess req ∧ schemeMatchesSsl sess req)
  ∧ (∀ a req, processed_reports sess a = Except.ok req →
      carriesFixedHeaders sess req ∧ schemeMatchesSsl sess req)
  ∧ (∀ a req, inbox_reports sess a = Except.ok req →
      carriesFixedHeaders sess req ∧ schemeMatchesSsl sess req)
  ∧ (∀ a req, clusters sess a = Except.ok req →
      carriesFixedHeaders sess req ∧ schemeMatchesSsl sess req)
  ∧ (∀ aid mt req, attachment sess aid mt = Except.ok req →
      carriesFixedHeaders sess req ∧ schemeMatchesSsl sess req)
  ∧ (∀ sha256 md5 searchurl req, integration_search sess sha256 md5 searchurl = Except.ok req →
      carriesFixedHeaders sess req ∧ schemeMatchesSsl sess req) := by
  refine ⟨?_, ?_, ?_, ?_, ?_, ?_⟩
  · intro a req h
    obtain ⟨-, hh, t, hu⟩ := reports_ok_shape h
    exact ⟨carries_of_base _ hh, schemeMatches_of_mkUrl t hu⟩
  · intro a req h
    obtain ⟨-, hh, t, hu⟩ := processed_ok_shape h
    exact ⟨carries_of_base _ hh, schemeMatches_of_mkUrl t hu⟩
  · intro a req h
    obtain ⟨-, hh, t, hu⟩ := inbox_ok_shape h
    exact ⟨carries_of_base _ hh, schemeMatches_of_mkUrl t hu⟩
  · intro a req h
    obtain ⟨-, hh, t, hu⟩ := clusters_ok_shape h
    exact ⟨carries_of_base _ hh, schemeMatches_of_mkUrl t hu⟩
  · intro aid mt req h
    obtain ⟨-, hh, t, hu⟩ := attachment_ok_shape h
    exact ⟨carries_of_base _ hh, schemeMatches_of_mkUrl t hu⟩
  · intro sha256 md5 searchurl req h
    obtain ⟨-, hh, t, hu⟩ := integration_ok_shape h
    exact ⟨carries_of_base _ hh, schemeMatches_of_mkUrl t hu⟩

/-- Witness for C9 across all six operations at concrete calls. -/
theorem c9_witness :
    ("Accept", "application/vnd.ve.v1.0+json") ∈
      (Request.mk "GET" (mkUrl sessW "/api/public/v1/reports") (jsonHeaders sessW)).headers
  ∧ ("VE-API-Version", apiver) ∈
      (Request.mk "GET" (mkUrl sessW "/api/public/v1/processed_reports") (jsonHeaders sessW)).headers
  ∧ ("user-agent", sessW.uag) ∈
      (Request.mk "GET" (mkUrl sessW "/api/public/v1/inbox_reports") (jsonHeaders sessW)).headers
  ∧ ("Authorization", "Token token=" ++ sessW.email ++ ":" ++ sessW.apikey) ∈
      (Request.mk "GET" (mkUrl sessW "/api/public/v1/clusters") (jsonHeaders sessW)).headers
  ∧ ("Authorization", "Token token=" ++ sessW.email ++ ":" ++ sessW.apikey) ∈
      (Request.mk "GET" (mkUrl sessW "/api/public/v1/attachment/7")
        (sessionHeaders sessW ++ [("Content-Type", "application/pdf")])).headers
  ∧ ("Accept", "application/vnd.ve.v1.0+json") ∈
      (Request.mk "GET" (mkUrl sessW "/api/public/v1/integration_search?sha256=y")
        (jsonHeaders sessW)).headers :=
  ⟨((c9_fixed_headers sessW).1 noReportsArgs
      (Request.mk "GET" (mkUrl sessW "/api/public/v1/reports") (jsonHeaders sessW))
      rfl).1.1,
   ((c9_fixed_headers sessW).2.1 noProcessedArgs
      (Request.mk "GET" (mkUrl sessW "/api/public/v1/processed_reports") (jsonHeaders sessW))
      rfl).1.2.1,
   ((c9_fixed_headers sessW).2.2.1 noInboxArgs
      (Request.mk "GET" (mkUrl sessW "/api/public/v1/inbox_reports") (jsonHeaders sessW))
      rfl).1.2.2.1,
   ((c9_fixed_headers sessW).2.2.2.1 noClustersArgs
      (Request.mk "GET" (mkUrl sessW "/api/public/v1/clusters") (jsonHeaders sessW))
      rfl).1.2.2.2,
   ((c9_fixed_headers sessW).2.2.2.2.1 (PyVal.int 7) (PyVal.str "application/pdf")
      (Request.mk "GET" (mkUrl sessW "/api/public/v1/attachment/7")
        (sessionHeaders sessW ++ [("Content-Type", "application/pdf")]))
      rfl).1.2.2.2,
   ((c9_fixed_headers sessW).2.2.2.2.2 (PyVal.str "y") PyVal.none PyVal.none
      (Request.mk "GET" (mkUrl sessW "/api/public/v1/integration_search?sha256=y")
        (jsonHeaders sessW))
      rfl).1.1⟩

/-- C10: in `integration_search`, the cross-parameter check counts `None`
values while query building tests truthiness: a non-None falsy value (such
as `md5=""`, or the same for sha256 or searchurl) raises no usage error
and yields a request whose URL ends in `?` followed by the empty query;
and when several parameters are truthy they are all emitted, in the fixed
order searchurl, md5, sha256. -/
theorem c10_none_vs_truthy (sess : TriageSession) (u m h : String)
    (hu : u ≠ "") (hm : m ≠ "") (hh : h ≠ "") :
    integration_search sess PyVal.none (PyVal.str "") PyVal.none =
      Except.ok (Request.mk "GET" (mkUrl sess "/api/public/v1/integration_search?")
        (jsonHeaders sess))
  ∧ integration_search sess (PyVal.str "") PyVal.none PyVal.none =
      Except.ok (Request.mk "GET" (mkUrl sess "/api/public/v1/integration_search?")
        (jsonHeaders sess))
  ∧ integration_search sess PyVal.none PyVal.none (PyVal.str "") =
      Except.ok (Request.mk "GET" (mkUrl sess "/api/public/v1/integration_search?")
        (jsonHeaders sess))
  ∧ integration_search sess (PyVal.str h) (PyVal.str m) (PyVal.str u) =
      Except.ok (Request.mk "GET"
        (mkUrl sess ("/api/public/v1/integration_search?" ++
          String.intercalate "&"
            ["searchurl=" ++ u, "md5=" ++ m, "sha256=" ++ h]))
        (jsonHeaders sess)) := by
  refine ⟨rfl, rfl, rfl, ?_⟩
  simp [integration_search, strParam, PyVal.truthy, PyVal.isStr, PyVal.isNone,
    hu, hm, hh]

/-- Witness for C10 with all three parameters truthy. -/
theorem c10_witness :
    "u" ≠ "" ∧ "m" ≠ "" ∧ "h" ≠ "" ∧
    integration_search sessW (PyVal.str "h") (PyVal.str "m") (PyVal.str "u") =
      Except.ok (Request.mk "GET"
        (mkUrl sessW ("/api/public/v1/integration_search?" ++
          String.intercalate "&"
            ["searchurl=" ++ "u", "md5=" ++ "m", "sha256=" ++ "h"]))
        (jsonHeaders sessW)) :=
  ⟨by decide, by decide, by decide,
   (c10_none_vs_truthy sessW "u" "m" "h" (by decide) (by decide) (by decide)).2.2.2⟩
